import Mathlib

/-!
Verification of the resume validation and build pipeline: a shallow
embedding of the data model (`src/resume/models.py`), the validation
pipeline (`src/resume/validators/schema.py`) and the builder registry
(`src/resume/builders/__init__.py`), with theorems settling the spec
claims about them.

Python strings are modelled as Lean `String`; every string operation the
code uses (`lower`, `strip`, lexicographic `<`, slicing, `split`) is
implemented below on the character list so that all definitions evaluate
inside the kernel.
-/

namespace Resume

/-! ## String helpers (Python string semantics) -/

/-- ASCII lower-casing of one character (Python `str.lower` on the ASCII
range, which is all the code ever feeds it). -/
def charLower (c : Char) : Char :=
  if 'A' ≤ c && c ≤ 'Z' then Char.ofNat (c.toNat + 32) else c

/-- Python `str.lower`. -/
def pyLower (s : String) : String := ⟨s.data.map charLower⟩

/-- Whitespace as stripped by Python `str.strip()` (the code only ever has
spaces, tabs and newlines around format names). -/
def isPySpace (c : Char) : Bool := c == ' ' || c == '\t' || c == '\n' || c == '\r'

/-- Python `str.strip()`: drop whitespace from both ends. -/
def pyStrip (s : String) : String :=
  ⟨((s.data.dropWhile isPySpace).reverse.dropWhile isPySpace).reverse⟩

/-- Lexicographic non-strict comparison of char lists (Python `str <=` is
lexicographic on code points). -/
def charListLe : List Char → List Char → Bool
  | [], _ => true
  | _ :: _, [] => false
  | a :: as, b :: bs => if a == b then charListLe as bs else decide (a < b)

/-- Lexicographic strict comparison of char lists (Python `str <`). -/
def charListLt : List Char → List Char → Bool
  | [], [] => false
  | [], _ :: _ => true
  | _ :: _, [] => false
  | a :: as, b :: bs => if a == b then charListLt as bs else decide (a < b)

/-- Python `s <= t` on strings. -/
def strLe (s t : String) : Bool := charListLe s.data t.data

/-- Python `s < t` on strings. -/
def strLt (s t : String) : Bool := charListLt s.data t.data

/-- Python `len(s)` (number of characters). -/
def strLen (s : String) : Nat := s.data.length

/-- Python `s[:n]` (first `n` characters). -/
def strTake (s : String) (n : Nat) : String := ⟨s.data.take n⟩

/-- Auxiliary scan for substring containment. -/
def strContainsAux (needle : List Char) : List Char → Bool
  | [] => needle.isEmpty
  | c :: t => needle.isPrefixOf (c :: t) || strContainsAux needle t

/-- Python `needle in hay` on strings. -/
def strContains (hay needle : String) : Bool := strContainsAux needle.data hay.data

/-- Python `sep.join(parts)`. -/
def joinSep (sep : String) : List String → String
  | [] => ""
  | [x] => x
  | x :: y :: xs => x ++ sep ++ joinSep sep (y :: xs)

/-- Split a char list on a separator character (Python `s.split(sep)` for a
one-character separator). -/
def splitOnChar (sep : Char) : List Char → List (List Char)
  | [] => [[]]
  | c :: t =>
    let rest := splitOnChar sep t
    if c == sep then [] :: rest
    else
      match rest with
      | [] => [[c]]
      | h :: r => (c :: h) :: r

/-- Parse a non-empty all-digit char list as a natural number (the only
successful case of Python `int(...)` the validated data can reach). -/
def parseDigits (l : List Char) : Option Nat :=
  if l.isEmpty || !(l.all Char.isDigit) then none
  else some (l.foldl (fun acc c => acc * 10 + (c.toNat - '0'.toNat)) 0)

/-- Python truthiness of an optional non-negative integer field
(`None` and `0` are falsy). -/
def truthyOptInt (o : Option Int) : Bool :=
  match o with
  | none => false
  | some n => n != 0

/-- Python truthiness of an optional string (`None` and `""` are falsy). -/
def truthyOptStr (o : Option String) : Bool :=
  match o with
  | none => false
  | some s => !s.data.isEmpty

/-- Python truthiness of an optional list (`None` and `[]` are falsy). -/
def truthyOptList (o : Option (List α)) : Bool :=
  match o with
  | none => false
  | some l => !l.isEmpty

/-! ## Field-pattern checks from `models.py` -/

/-- The regex `^\x7bd4\x7d-\x7bd2\x7d` shape `YYYY-MM`: four digits, a dash,
two digits (`models.py` `start_date`, `end_date`, `date_earned`, ...). -/
def isYYYYMM (s : String) : Bool :=
  match s.data with
  | [y1, y2, y3, y4, d, m1, m2] =>
    y1.isDigit && y2.isDigit && y3.isDigit && y4.isDigit &&
    d == '-' && m1.isDigit && m2.isDigit
  | _ => false

/-- The regex shape `YYYY`: exactly four digits (`graduation_date`,
`last_used`). -/
def isYYYY (s : String) : Bool :=
  match s.data with
  | [y1, y2, y3, y4] => y1.isDigit && y2.isDigit && y3.isDigit && y4.isDigit
  | _ => false

/-- The semantic-version regex: digits, dot, digits, dot, digits
(`ResumeData.version`). -/
def isSemver (s : String) : Bool :=
  match splitOnChar '.' s.data with
  | [a, b, c] =>
    !a.isEmpty && a.all Char.isDigit && !b.isEmpty && b.all Char.isDigit &&
    !c.isEmpty && c.all Char.isDigit
  | _ => false

/-- The phone regex: optional `+`, a leading digit `1`-`9`, then 1 to 14
further digits (`PersonalInfo.phone`). -/
def isPhone (s : String) : Bool :=
  let l := match s.data with
    | '+' :: t => t
    | t => t
  match l with
  | [] => false
  | c :: rest =>
    ('1' ≤ c && c ≤ '9') && rest.all Char.isDigit &&
    1 ≤ rest.length && rest.length ≤ 14

/-- Modelled from the spec: the external `email-validator` collaborator
behind pydantic `EmailStr` is not part of the repository; the model keeps
only the minimal shape the spec relies on (an address has an `@`). -/
def emailShapeOk (s : String) : Bool := strContains s "@"

/-! ## Enumerations (`models.py`) -/

/-- Skill proficiency levels. -/
inductive Proficiency
  | expert
  | advanced
  | intermediate
  | beginner
deriving DecidableEq

/-- Achievement impact levels. -/
inductive Impact
  | high
  | medium
  | low
deriving DecidableEq

/-- Project status options. -/
inductive ProjectStatus
  | completed
  | in_progress
  | maintenance
  | archived
deriving DecidableEq

/-- Language proficiency levels. -/
inductive LanguageProficiency
  | native
  | fluent
  | conversational
  | basic
deriving DecidableEq

/-! ## Model structures (`models.py`)

Each structure carries the raw field values; the pydantic field constraints
are separate check functions below (`checkPersonalInfo`, ...), mirroring
how construction either yields a fully checked value or a list of field
errors. Library-parsed scalar types (`datetime`, `HttpUrl`) are carried as
plain strings: their parsing lives in external collaborators. -/

structure Location where
  city : String
  state : String
  country : String
  remote_friendly : Bool := true
deriving DecidableEq

structure Links where
  linkedin : Option String := none
  github : Option String := none
  website : Option String := none
  blog : Option String := none
  twitter : Option String := none
deriving DecidableEq

structure PersonalInfo where
  name : String
  title : String
  email : String
  phone : Option String := none
  location : Location
  links : Option Links := none
deriving DecidableEq

structure ProfessionalSummary where
  headline : String
  overview : String
  key_strengths : List String
  years_experience : Option Int := none
  ai_enhanced : Bool := false
deriving DecidableEq

structure Metric where
  value : String
  unit : String
  improvement : Bool := true
deriving DecidableEq

structure Achievement where
  description : String
  impact : Impact := Impact.medium
  metrics : Option (List Metric) := none
  technologies : Option (List String) := none
  ai_enhanced : Bool := false
deriving DecidableEq

structure Experience where
  company : String
  role : String
  start_date : String
  end_date : Option String := none
  location : Option String := none
  company_description : Option String := none
  achievements : List Achievement
deriving DecidableEq

structure Skill where
  name : String
  proficiency : Proficiency
  years_experience : Option Int := none
  certifications : Option (List String) := none
  last_used : Option String := none
deriving DecidableEq

structure SkillCategory where
  display_name : Option String := none
  priority : Int := 5
  skills : List Skill
deriving DecidableEq

/-- The `categories` dict is carried as an association list in insertion
order, as a Python dict iterates. -/
structure Skills where
  categories : List (String × SkillCategory)
  summary : Option String := none
deriving DecidableEq

structure Education where
  institution : String
  degree : String
  field_of_study : Option String := none
  graduation_date : String
  gpa : Option ℚ := none
  honors : Option (List String) := none
  relevant_coursework : Option (List String) := none
deriving DecidableEq

structure Certification where
  name : String
  issuer : String
  date_earned : String
  expiration_date : Option String := none
  credential_id : Option String := none
  verification_url : Option String := none
  priority : Int := 5
deriving DecidableEq

structure Project where
  name : String
  description : String
  technologies : List String
  url : Option String := none
  github_url : Option String := none
  start_date : Option String := none
  end_date : Option String := none
  status : Option ProjectStatus := none
  highlights : Option (List String) := none
  ai_enhanced : Bool := false
deriving DecidableEq

structure Award where
  title : String
  issuer : String
  date : String
  description : Option String := none
deriving DecidableEq

structure Publication where
  title : String
  publication : String
  date : String
  url : Option String := none
  co_authors : Option (List String) := none
deriving DecidableEq

structure Language where
  language : String
  proficiency : LanguageProficiency
deriving DecidableEq

structure AIEnhancement where
  total_enhanced_fields : Int
  enhancement_date : String
  ai_model_version : String
  enhancement_notes : Option String := none
deriving DecidableEq

structure BuildInfo where
  build_number : Option Int := none
  commit_hash : Option String := none
  build_date : Option String := none
deriving DecidableEq

structure Analytics where
  keywords_density : Option (List (String × ℚ)) := none
  ats_score : Option ℚ := none
  readability_score : Option ℚ := none
deriving DecidableEq

structure Metadata where
  created_date : Option String := none
  ai_enhancements : Option AIEnhancement := none
  build_info : Option BuildInfo := none
  analytics : Option Analytics := none
deriving DecidableEq

/-- Complete resume data model (`ResumeData` in `models.py`). -/
structure ResumeData where
  version : String
  last_updated : String
  personal_info : PersonalInfo
  professional_summary : ProfessionalSummary
  experience : List Experience
  skills : Skills
  education : List Education
  certifications : Option (List Certification) := none
  projects : Option (List Project) := none
  awards : Option (List Award) := none
  publications : Option (List Publication) := none
  languages : Option (List Language) := none
  metadata : Option Metadata := none
deriving DecidableEq

/-! ## Derived accessors (`models.py`) -/

/-- `Experience.is_current`: the position is current iff `end_date` is null. -/
def Experience.is_current (e : Experience) : Bool := e.end_date.isNone

/-- Parse a `YYYY-MM` string into year and month, as
`map(int, s.split('-'))` does on validated data; `none` when the shape is
not two dash-separated digit groups. -/
def parseYM (s : String) : Option (Nat × Nat) :=
  match splitOnChar '-' s.data with
  | [y, m] =>
    match parseDigits y, parseDigits m with
    | some yy, some mm => some (yy, mm)
    | _, _ => none
  | _ => none

/-- `(year2 - year1) * 12 + (month2 - month1)` over the integers. -/
def monthSpan (y1 m1 y2 m2 : Nat) : Int :=
  ((y2 : Int) - (y1 : Int)) * 12 + ((m2 : Int) - (m1 : Int))

/-- `Experience.duration_months`, with the wall clock `now = (year, month)`
passed explicitly (the source reads `datetime.now()`; the spec requires
"now" injectable). `none` models the `ValueError` escaping when a date
string does not parse — unreachable once the model is constructed. -/
def Experience.duration_months (e : Experience) (now : Nat × Nat) : Option Int :=
  match e.end_date with
  | none =>
    match parseYM e.start_date with
    | some (sy, sm) => some (monthSpan sy sm now.1 now.2)
    | none => none
  | some ed =>
    match parseYM e.start_date, parseYM ed with
    | some (sy, sm), some (ey, em) => some (monthSpan sy sm ey em)
    | _, _ => none

/-- `ResumeData.total_experience_years`: an explicit (truthy)
`professional_summary.years_experience` wins; otherwise the summed
`duration_months` floored-divided by 12, with a floor of 1 year. -/
def ResumeData.total_experience_years (d : ResumeData) (now : Nat × Nat) : Int :=
  if truthyOptInt d.professional_summary.years_experience then
    d.professional_summary.years_experience.getD 0
  else
    let total_months : Int :=
      (d.experience.map (fun e => (e.duration_months now).getD 0)).sum
    max 1 (Int.fdiv total_months 12)

/-- `ResumeData.current_role`: first experience with `is_current`, in
declaration order. -/
def ResumeData.current_role (d : ResumeData) : Option Experience :=
  d.experience.find? Experience.is_current

/-- `ResumeData.get_skills_by_category`: the named category when present,
otherwise the empty list. -/
def ResumeData.get_skills_by_category (d : ResumeData) (category : String) : List Skill :=
  match d.skills.categories.lookup category with
  | none => []
  | some c => c.skills

/-- The `proficiency_order` table inside `get_top_skills`. -/
def proficiencyOrder : Proficiency → Nat
  | Proficiency.expert => 4
  | Proficiency.advanced => 3
  | Proficiency.intermediate => 2
  | Proficiency.beginner => 1

/-- The sort key of `get_top_skills`:
`(proficiency_order[s.proficiency], s.years_experience or 0)`. -/
def skillSortKey (s : Skill) : Nat × Int :=
  (proficiencyOrder s.proficiency, s.years_experience.getD 0)

/-- Non-strict lexicographic order on sort keys (Python tuple comparison). -/
def keyLe (a b : Nat × Int) : Bool :=
  a.1 < b.1 || (a.1 == b.1 && decide (a.2 ≤ b.2))

/-- "May come no later than" for `sorted(..., reverse=True)`: `s` may stand
before `t` iff the key of `t` is at most the key of `s`. A stable sort with
this relation is exactly Python's stable descending sort. -/
def skillDescBefore (s t : Skill) : Prop := keyLe (skillSortKey t) (skillSortKey s) = true

instance : DecidableRel skillDescBefore := fun s t => by
  unfold skillDescBefore; infer_instance

/-- All skills of the document, categories concatenated in insertion
order (the `all_skills` accumulation in `get_top_skills`). -/
def ResumeData.allSkills (d : ResumeData) : List Skill :=
  (d.skills.categories.map (fun c => c.2.skills)).flatten

/-- `ResumeData.get_top_skills`: the stable descending sort of all skills
by `skillSortKey`, truncated to `limit`. -/
def ResumeData.get_top_skills (d : ResumeData) (limit : Nat) : List Skill :=
  (d.allSkills.insertionSort skillDescBefore).take limit

/-! ## Gate 2: typed model construction (pydantic field constraints)

Each `check…` function returns the list of field errors pydantic collects
for that (sub)model, one entry per violated field constraint, tagged with
the field location. The `count…`/`…Count` functions state the same
constraints as plain indicator sums, for the aggregation theorem. -/

/-- A pydantic field error: location path plus message. -/
structure PydErr where
  loc : List String
  msg : String
deriving DecidableEq

/-- One error when the constraint-violation flag is set. -/
def errIf (b : Bool) (loc : List String) (msg : String) : List PydErr :=
  if b then [⟨loc, msg⟩] else []

/-- Indicator of one constraint violation. -/
def cntIf (b : Bool) : Nat := if b then 1 else 0

/-- Checks of an optional field: nothing to check when absent. -/
def optChecks (o : Option α) (f : α → List PydErr) : List PydErr :=
  match o with
  | none => []
  | some x => f x

/-- Violation count of an optional field. -/
def optCount (o : Option α) (f : α → Nat) : Nat :=
  match o with
  | none => 0
  | some x => f x

/-- Checks of each item of a list field, locations indexed as pydantic
indexes them. -/
def listChecks (loc : List String) (l : List α) (f : List String → α → List PydErr) :
    List PydErr :=
  (l.enum.map (fun p => f (loc ++ [toString p.1]) p.2)).flatten

/-- Violation count over the items of a list field. -/
def listCount (l : List α) (f : α → Nat) : Nat := (l.map f).sum

/-- Checks of each value of a dict field, locations keyed as pydantic keys
them. -/
def assocChecks (loc : List String) (l : List (String × α))
    (f : List String → α → List PydErr) : List PydErr :=
  (l.map (fun kv => f (loc ++ [kv.1]) kv.2)).flatten

/-- Violation count over the values of a dict field. -/
def assocCount (l : List (String × α)) (f : α → Nat) : Nat :=
  (l.map (fun kv => f kv.2)).sum

/-- Checks of a required top-level field: a single `field required` error
when the raw record lacks it. -/
def reqChecks (field : String) (o : Option α) (f : α → List PydErr) : List PydErr :=
  match o with
  | none => [⟨[field], "field required"⟩]
  | some x => f x

/-- Violation count of a required top-level field. -/
def reqCount (o : Option α) (f : α → Nat) : Nat :=
  match o with
  | none => 1
  | some x => f x

def minCharsMsg (n : Nat) : String :=
  "ensure this value has at least " ++ toString n ++ " characters"

def maxCharsMsg (n : Nat) : String :=
  "ensure this value has at most " ++ toString n ++ " characters"

def minItemsMsg (n : Nat) : String :=
  "ensure this value has at least " ++ toString n ++ " items"

def maxItemsMsg (n : Nat) : String :=
  "ensure this value has at most " ++ toString n ++ " items"

def geMsg (n : Int) : String :=
  "ensure this value is greater than or equal to " ++ toString n

def leMsg (n : Int) : String :=
  "ensure this value is less than or equal to " ++ toString n

def patternMsg : String := "string does not match expected pattern"

def checkLocation (loc : List String) (l : Location) : List PydErr :=
  errIf (strLen l.city < 2) (loc ++ ["city"]) (minCharsMsg 2) ++
  errIf (strLen l.state < 2) (loc ++ ["state"]) (minCharsMsg 2) ++
  errIf (strLen l.country < 2) (loc ++ ["country"]) (minCharsMsg 2)

def locationCount (l : Location) : Nat :=
  cntIf (strLen l.city < 2) + cntIf (strLen l.state < 2) + cntIf (strLen l.country < 2)

def checkPersonalInfo (loc : List String) (p : PersonalInfo) : List PydErr :=
  errIf (strLen p.name < 2) (loc ++ ["name"]) (minCharsMsg 2) ++
  errIf (100 < strLen p.name) (loc ++ ["name"]) (maxCharsMsg 100) ++
  errIf (strLen p.title < 5) (loc ++ ["title"]) (minCharsMsg 5) ++
  errIf (100 < strLen p.title) (loc ++ ["title"]) (maxCharsMsg 100) ++
  errIf (!emailShapeOk p.email) (loc ++ ["email"]) "value is not a valid email address" ++
  optChecks p.phone (fun ph => errIf (!isPhone ph) (loc ++ ["phone"]) patternMsg) ++
  checkLocation (loc ++ ["location"]) p.location

def personalInfoCount (p : PersonalInfo) : Nat :=
  cntIf (strLen p.name < 2) + cntIf (100 < strLen p.name) +
  cntIf (strLen p.title < 5) + cntIf (100 < strLen p.title) +
  cntIf (!emailShapeOk p.email) +
  optCount p.phone (fun ph => cntIf (!isPhone ph)) +
  locationCount p.location

def checkProfessionalSummary (loc : List String) (p : ProfessionalSummary) : List PydErr :=
  errIf (strLen p.headline < 10) (loc ++ ["headline"]) (minCharsMsg 10) ++
  errIf (200 < strLen p.headline) (loc ++ ["headline"]) (maxCharsMsg 200) ++
  errIf (strLen p.overview < 100) (loc ++ ["overview"]) (minCharsMsg 100) ++
  errIf (1000 < strLen p.overview) (loc ++ ["overview"]) (maxCharsMsg 1000) ++
  errIf (p.key_strengths.length < 3) (loc ++ ["key_strengths"]) (minItemsMsg 3) ++
  errIf (8 < p.key_strengths.length) (loc ++ ["key_strengths"]) (maxItemsMsg 8) ++
  optChecks p.years_experience (fun y =>
    errIf (y < 0) (loc ++ ["years_experience"]) (geMsg 0) ++
    errIf (50 < y) (loc ++ ["years_experience"]) (leMsg 50))

def professionalSummaryCount (p : ProfessionalSummary) : Nat :=
  cntIf (strLen p.headline < 10) + cntIf (200 < strLen p.headline) +
  cntIf (strLen p.overview < 100) + cntIf (1000 < strLen p.overview) +
  cntIf (p.key_strengths.length < 3) + cntIf (8 < p.key_strengths.length) +
  optCount p.years_experience (fun y => cntIf (y < 0) + cntIf (50 < y))

def checkAchievement (loc : List String) (a : Achievement) : List PydErr :=
  errIf (strLen a.description < 20) (loc ++ ["description"]) (minCharsMsg 20) ++
  errIf (300 < strLen a.description) (loc ++ ["description"]) (maxCharsMsg 300)

def achievementCount (a : Achievement) : Nat :=
  cntIf (strLen a.description < 20) + cntIf (300 < strLen a.description)

def checkExperience (loc : List String) (e : Experience) : List PydErr :=
  errIf (strLen e.company < 2) (loc ++ ["company"]) (minCharsMsg 2) ++
  errIf (100 < strLen e.company) (loc ++ ["company"]) (maxCharsMsg 100) ++
  errIf (strLen e.role < 5) (loc ++ ["role"]) (minCharsMsg 5) ++
  errIf (100 < strLen e.role) (loc ++ ["role"]) (maxCharsMsg 100) ++
  errIf (!isYYYYMM e.start_date) (loc ++ ["start_date"]) patternMsg ++
  optChecks e.end_date (fun ed => errIf (!isYYYYMM ed) (loc ++ ["end_date"]) patternMsg) ++
  optChecks e.location (fun s => errIf (100 < strLen s) (loc ++ ["location"]) (maxCharsMsg 100)) ++
  optChecks e.company_description (fun s =>
    errIf (200 < strLen s) (loc ++ ["company_description"]) (maxCharsMsg 200)) ++
  errIf (e.achievements.length < 2) (loc ++ ["achievements"]) (minItemsMsg 2) ++
  errIf (8 < e.achievements.length) (loc ++ ["achievements"]) (maxItemsMsg 8) ++
  listChecks (loc ++ ["achievements"]) e.achievements checkAchievement

def experienceCount (e : Experience) : Nat :=
  cntIf (strLen e.company < 2) + cntIf (100 < strLen e.company) +
  cntIf (strLen e.role < 5) + cntIf (100 < strLen e.role) +
  cntIf (!isYYYYMM e.start_date) +
  optCount e.end_date (fun ed => cntIf (!isYYYYMM ed)) +
  optCount e.location (fun s => cntIf (100 < strLen s)) +
  optCount e.company_description (fun s => cntIf (200 < strLen s)) +
  cntIf (e.achievements.length < 2) + cntIf (8 < e.achievements.length) +
  listCount e.achievements achievementCount

def checkSkill (loc : List String) (s : Skill) : List PydErr :=
  errIf (strLen s.name < 2) (loc ++ ["name"]) (minCharsMsg 2) ++
  errIf (50 < strLen s.name) (loc ++ ["name"]) (maxCharsMsg 50) ++
  optChecks s.years_experience (fun y =>
    errIf (y < 0) (loc ++ ["years_experience"]) (geMsg 0) ++
    errIf (30 < y) (loc ++ ["years_experience"]) (leMsg 30)) ++
  optChecks s.last_used (fun u => errIf (!isYYYY u) (loc ++ ["last_used"]) patternMsg)

def skillCount (s : Skill) : Nat :=
  cntIf (strLen s.name < 2) + cntIf (50 < strLen s.name) +
  optCount s.years_experience (fun y => cntIf (y < 0) + cntIf (30 < y)) +
  optCount s.last_used (fun u => cntIf (!isYYYY u))

def checkSkillCategory (loc : List String) (c : SkillCategory) : List PydErr :=
  errIf (c.priority < 1) (loc ++ ["priority"]) (geMsg 1) ++
  errIf (10 < c.priority) (loc ++ ["priority"]) (leMsg 10) ++
  errIf (c.skills.length < 1) (loc ++ ["skills"]) (minItemsMsg 1) ++
  listChecks (loc ++ ["skills"]) c.skills checkSkill

def skillCategoryCount (c : SkillCategory) : Nat :=
  cntIf (c.priority < 1) + cntIf (10 < c.priority) +
  cntIf (c.skills.length < 1) + listCount c.skills skillCount

/-- The `validate_category_keys` validator: a key stripped of underscores
and spaces must be non-empty and alphanumeric. -/
def categoryKeyOk (k : String) : Bool :=
  let t := k.data.filter (fun c => !(c == '_' || c == ' '))
  !t.isEmpty && t.all Char.isAlphanum

def checkSkills (loc : List String) (s : Skills) : List PydErr :=
  (match s.categories.find? (fun kv => !categoryKeyOk kv.1) with
   | some kv => [⟨loc ++ ["categories"], "Invalid category key: " ++ kv.1⟩]
   | none => []) ++
  assocChecks (loc ++ ["categories"]) s.categories checkSkillCategory ++
  optChecks s.summary (fun t => errIf (500 < strLen t) (loc ++ ["summary"]) (maxCharsMsg 500))

def skillsCount (s : Skills) : Nat :=
  cntIf (s.categories.any (fun kv => !categoryKeyOk kv.1)) +
  assocCount s.categories skillCategoryCount +
  optCount s.summary (fun t => cntIf (500 < strLen t))

def checkEducation (loc : List String) (e : Education) : List PydErr :=
  errIf (strLen e.institution < 2) (loc ++ ["institution"]) (minCharsMsg 2) ++
  errIf (100 < strLen e.institution) (loc ++ ["institution"]) (maxCharsMsg 100) ++
  errIf (strLen e.degree < 5) (loc ++ ["degree"]) (minCharsMsg 5) ++
  errIf (100 < strLen e.degree) (loc ++ ["degree"]) (maxCharsMsg 100) ++
  optChecks e.field_of_study (fun s =>
    errIf (100 < strLen s) (loc ++ ["field_of_study"]) (maxCharsMsg 100)) ++
  errIf (!isYYYY e.graduation_date) (loc ++ ["graduation_date"]) patternMsg ++
  optChecks e.gpa (fun g =>
    errIf (decide (g < 0)) (loc ++ ["gpa"]) (geMsg 0) ++
    errIf (decide ((4 : ℚ) < g)) (loc ++ ["gpa"]) (leMsg 4))

def educationCount (e : Education) : Nat :=
  cntIf (strLen e.institution < 2) + cntIf (100 < strLen e.institution) +
  cntIf (strLen e.degree < 5) + cntIf (100 < strLen e.degree) +
  optCount e.field_of_study (fun s => cntIf (100 < strLen s)) +
  cntIf (!isYYYY e.graduation_date) +
  optCount e.gpa (fun g => cntIf (decide (g < 0)) + cntIf (decide ((4 : ℚ) < g)))

def checkCertification (loc : List String) (c : Certification) : List PydErr :=
  errIf (strLen c.name < 5) (loc ++ ["name"]) (minCharsMsg 5) ++
  errIf (100 < strLen c.name) (loc ++ ["name"]) (maxCharsMsg 100) ++
  errIf (strLen c.issuer < 2) (loc ++ ["issuer"]) (minCharsMsg 2) ++
  errIf (100 < strLen c.issuer) (loc ++ ["issuer"]) (maxCharsMsg 100) ++
  errIf (!isYYYYMM c.date_earned) (loc ++ ["date_earned"]) patternMsg ++
  optChecks c.expiration_date (fun d =>
    errIf (!isYYYYMM d) (loc ++ ["expiration_date"]) patternMsg) ++
  errIf (c.priority < 1) (loc ++ ["priority"]) (geMsg 1) ++
  errIf (10 < c.priority) (loc ++ ["priority"]) (leMsg 10)

def certificationCount (c : Certification) : Nat :=
  cntIf (strLen c.name < 5) + cntIf (100 < strLen c.name) +
  cntIf (strLen c.issuer < 2) + cntIf (100 < strLen c.issuer) +
  cntIf (!isYYYYMM c.date_earned) +
  optCount c.expiration_date (fun d => cntIf (!isYYYYMM d)) +
  cntIf (c.priority < 1) + cntIf (10 < c.priority)

def checkProject (loc : List String) (p : Project) : List PydErr :=
  errIf (strLen p.name < 3) (loc ++ ["name"]) (minCharsMsg 3) ++
  errIf (100 < strLen p.name) (loc ++ ["name"]) (maxCharsMsg 100) ++
  errIf (strLen p.description < 50) (loc ++ ["description"]) (minCharsMsg 50) ++
  errIf (500 < strLen p.description) (loc ++ ["description"]) (maxCharsMsg 500) ++
  errIf (p.technologies.length < 1) (loc ++ ["technologies"]) (minItemsMsg 1) ++
  optChecks p.start_date (fun d => errIf (!isYYYYMM d) (loc ++ ["start_date"]) patternMsg) ++
  optChecks p.end_date (fun d => errIf (!isYYYYMM d) (loc ++ ["end_date"]) patternMsg)

def projectCount (p : Project) : Nat :=
  cntIf (strLen p.name < 3) + cntIf (100 < strLen p.name) +
  cntIf (strLen p.description < 50) + cntIf (500 < strLen p.description) +
  cntIf (p.technologies.length < 1) +
  optCount p.start_date (fun d => cntIf (!isYYYYMM d)) +
  optCount p.end_date (fun d => cntIf (!isYYYYMM d))

def checkAward (loc : List String) (a : Award) : List PydErr :=
  errIf (!isYYYYMM a.date) (loc ++ ["date"]) patternMsg

def awardCount (a : Award) : Nat := cntIf (!isYYYYMM a.date)

def checkPublication (loc : List String) (p : Publication) : List PydErr :=
  errIf (!isYYYYMM p.date) (loc ++ ["date"]) patternMsg

def publicationCount (p : Publication) : Nat := cntIf (!isYYYYMM p.date)

def checkMetadata (loc : List String) (m : Metadata) : List PydErr :=
  optChecks m.ai_enhancements (fun a =>
    errIf (a.total_enhanced_fields < 0)
      (loc ++ ["ai_enhancements", "total_enhanced_fields"]) (geMsg 0)) ++
  optChecks m.analytics (fun a =>
    optChecks a.ats_score (fun v =>
      errIf (decide (v < 0)) (loc ++ ["analytics", "ats_score"]) (geMsg 0) ++
      errIf (decide ((100 : ℚ) < v)) (loc ++ ["analytics", "ats_score"]) (leMsg 100)) ++
    optChecks a.readability_score (fun v =>
      errIf (decide (v < 0)) (loc ++ ["analytics", "readability_score"]) (geMsg 0) ++
      errIf (decide ((100 : ℚ) < v)) (loc ++ ["analytics", "readability_score"]) (leMsg 100)))

def metadataCount (m : Metadata) : Nat :=
  optCount m.ai_enhancements (fun a => cntIf (a.total_enhanced_fields < 0)) +
  optCount m.analytics (fun a =>
    optCount a.ats_score (fun v => cntIf (decide (v < 0)) + cntIf (decide ((100 : ℚ) < v))) +
    optCount a.readability_score
      (fun v => cntIf (decide (v < 0)) + cntIf (decide ((100 : ℚ) < v))))

/-! ## The raw record and Gate 2 as a whole -/

/-- The raw top-level record after structural parse: each top-level section
may be missing, and unknown extra keys are carried by name (the model
forbids them: `extra = "forbid"`). -/
structure RawResumeData where
  version : Option String := none
  last_updated : Option String := none
  personal_info : Option PersonalInfo := none
  professional_summary : Option ProfessionalSummary := none
  experience : Option (List Experience) := none
  skills : Option Skills := none
  education : Option (List Education) := none
  certifications : Option (List Certification) := none
  projects : Option (List Project) := none
  awards : Option (List Award) := none
  publications : Option (List Publication) := none
  languages : Option (List Language) := none
  metadata : Option Metadata := none
  extra_keys : List String := []
deriving DecidableEq

/-- All field errors pydantic collects for `ResumeData(**data)`: required
fields, every field-level bound of §3, and forbidden extra keys. -/
def pydanticErrors (r : RawResumeData) : List PydErr :=
  reqChecks "version" r.version (fun v => errIf (!isSemver v) ["version"] patternMsg) ++
  reqChecks "last_updated" r.last_updated (fun _ => []) ++
  reqChecks "personal_info" r.personal_info (checkPersonalInfo ["personal_info"]) ++
  reqChecks "professional_summary" r.professional_summary
    (checkProfessionalSummary ["professional_summary"]) ++
  reqChecks "experience" r.experience (fun l =>
    errIf (l.length < 1) ["experience"] (minItemsMsg 1) ++
    listChecks ["experience"] l checkExperience) ++
  reqChecks "skills" r.skills (checkSkills ["skills"]) ++
  reqChecks "education" r.education (fun l =>
    errIf (l.length < 1) ["education"] (minItemsMsg 1) ++
    listChecks ["education"] l checkEducation) ++
  optChecks r.certifications (fun l => listChecks ["certifications"] l checkCertification) ++
  optChecks r.projects (fun l => listChecks ["projects"] l checkProject) ++
  optChecks r.awards (fun l => listChecks ["awards"] l checkAward) ++
  optChecks r.publications (fun l => listChecks ["publications"] l checkPublication) ++
  optChecks r.metadata (checkMetadata ["metadata"]) ++
  r.extra_keys.map (fun k => ⟨[k], "extra fields not permitted"⟩)

/-- The number of violated typed field constraints of the raw record, each
constraint counted once, stated as an indicator sum independent of the
error lists. -/
def violatedConstraintCount (r : RawResumeData) : Nat :=
  reqCount r.version (fun v => cntIf (!isSemver v)) +
  reqCount r.last_updated (fun _ => 0) +
  reqCount r.personal_info personalInfoCount +
  reqCount r.professional_summary professionalSummaryCount +
  reqCount r.experience (fun l => cntIf (l.length < 1) + listCount l experienceCount) +
  reqCount r.skills skillsCount +
  reqCount r.education (fun l => cntIf (l.length < 1) + listCount l educationCount) +
  optCount r.certifications (fun l => listCount l certificationCount) +
  optCount r.projects (fun l => listCount l projectCount) +
  optCount r.awards (fun l => listCount l awardCount) +
  optCount r.publications (fun l => listCount l publicationCount) +
  optCount r.metadata metadataCount +
  r.extra_keys.length

/-- Gate 2, `ResumeData(**data)`: the typed document when every constraint
holds, otherwise the collected field errors. -/
def pydanticBuild (r : RawResumeData) : Except (List PydErr) ResumeData :=
  match r.version, r.last_updated, r.personal_info, r.professional_summary,
      r.experience, r.skills, r.education with
  | some v, some lu, some pi, some ps, some ex, some sk, some ed =>
    if (pydanticErrors r).isEmpty then
      Except.ok
        { version := v, last_updated := lu, personal_info := pi,
          professional_summary := ps, experience := ex, skills := sk,
          education := ed, certifications := r.certifications,
          projects := r.projects, awards := r.awards,
          publications := r.publications, languages := r.languages,
          metadata := r.metadata }
    else Except.error (pydanticErrors r)
  | _, _, _, _, _, _, _ => Except.error (pydanticErrors r)

/-! ## Gate 1: structural schema check (`jsonschema.validate`) -/

/-- Modelled from the spec: the declarative schema file is external to the
repository (`validate_resume_data` only receives its path), and §6 of the
spec describes it as a JSON-Schema-style document with `type`, `required`
and `properties` declarations. The model keeps the part the claims
exercise: the required top-level field names. -/
structure JsonSchema where
  required : List String
deriving DecidableEq

/-- Whether the raw record carries a top-level key of the given name. -/
def RawResumeData.hasKey (r : RawResumeData) : String → Bool
  | "version" => r.version.isSome
  | "last_updated" => r.last_updated.isSome
  | "personal_info" => r.personal_info.isSome
  | "professional_summary" => r.professional_summary.isSome
  | "experience" => r.experience.isSome
  | "skills" => r.skills.isSome
  | "education" => r.education.isSome
  | "certifications" => r.certifications.isSome
  | "projects" => r.projects.isSome
  | "awards" => r.awards.isSome
  | "publications" => r.publications.isSome
  | "languages" => r.languages.isSome
  | "metadata" => r.metadata.isSome
  | k => r.extra_keys.contains k

/-- A structural schema violation as `jsonschema.ValidationError` carries
it: a message and a path to the offending field. -/
structure SchemaViolation where
  message : String
  path : List String
deriving DecidableEq

/-- Modelled from the spec: `jsonschema.validate` raises at the first
violation it finds; for a missing required top-level property it reports
the property name at the document root. -/
def schemaFirstViolation (schema : JsonSchema) (r : RawResumeData) :
    Option SchemaViolation :=
  (schema.required.find? (fun k => !r.hasKey k)).map
    (fun k => ⟨"'" ++ k ++ "' is a required property", []⟩)

/-! ## The validation pipeline (`validators/schema.py`) -/

/-- Result of resume validation (`ValidationResult`). -/
structure ValidationResult where
  is_valid : Bool
  errors : List String
  warnings : List String
  data : Option ResumeData := none
deriving DecidableEq

/-- `ValidationResult.has_warnings`. -/
def ValidationResult.has_warnings (v : ValidationResult) : Bool :=
  0 < v.warnings.length

/-- `ValidationResult.__bool__`: truthiness is validity. -/
def ValidationResult.toBool (v : ValidationResult) : Bool := v.is_valid

/-! ### Gate 3: business-rule linting (`_validate_business_rules`) -/

/-- `_calculate_month_diff`: month difference of two `YYYY-MM` strings,
`0` when either fails to parse. -/
def calculateMonthDiff (date1 date2 : String) : Int :=
  match parseYM date1, parseYM date2 with
  | some (y1, m1), some (y2, m2) => monthSpan y1 m1 y2 m2
  | _, _ => 0

/-- Experience sorted by `start_date` descending (Python `sorted` with
`reverse=True` is a stable descending sort). -/
def sortedExperienceDesc (l : List Experience) : List Experience :=
  l.insertionSort (fun a b => strLe b.start_date a.start_date = true)

instance : DecidableRel (fun (a b : Experience) => strLe b.start_date a.start_date = true) :=
  fun _ _ => by infer_instance

/-- Adjacent pairs of a list (`sorted_experience[i]`,
`sorted_experience[i+1]`). -/
def adjacentPairs (l : List α) : List (α × α) := l.zip l.tail

/-- The gap warning for one adjacent pair, when both dates are truthy, the
end precedes the next start, and the gap exceeds six months. -/
def gapWarning (p : Experience × Experience) : List String :=
  match p.1.end_date with
  | none => []
  | some ed =>
    if ed.data.isEmpty || p.2.start_date.data.isEmpty then []
    else if strLt ed p.2.start_date then
      if 6 < calculateMonthDiff ed p.2.start_date then
        ["Potential employment gap between " ++ p.1.company ++ " (ended " ++ ed ++
         ") and " ++ p.2.company ++ " (started " ++ p.2.start_date ++ ")"]
      else []
    else []

/-- Chronology warnings over adjacent pairs of the date-sorted experience. -/
def chronologyWarnings (d : ResumeData) : List String :=
  ((adjacentPairs (sortedExperienceDesc d.experience)).map gapWarning).flatten

/-- Current-position count warnings. -/
def currentPositionWarnings (d : ResumeData) : List String :=
  let count := (d.experience.filter Experience.is_current).length
  if count == 0 then ["No current position found - consider adding current role"]
  else if 1 < count then ["Multiple current positions found - ensure this is intentional"]
  else []

/-- Total number of skills across all categories. -/
def totalSkills (d : ResumeData) : Nat :=
  (d.skills.categories.map (fun c => c.2.skills.length)).sum

/-- The sparse-skills warning text for a given total. -/
def sparseSkillsWarning (total : Nat) : String :=
  "Only " ++ toString total ++ " skills listed - consider adding more for ATS optimization"

/-- The dense-skills warning text for a given total. -/
def denseSkillsWarning (total : Nat) : String :=
  toString total ++ " skills listed - consider focusing on top skills for readability"

/-- Skill-count warnings: sparse below 10, dense above 50. -/
def skillCountWarnings (d : ResumeData) : List String :=
  let total := totalSkills d
  if total < 10 then [sparseSkillsWarning total]
  else if 50 < total then [denseSkillsWarning total]
  else []

/-- The `company: first-50-chars...` tag built for unenhanced or
metric-less achievements. -/
def achievementTag (company : String) (a : Achievement) : String :=
  company ++ ": " ++ strTake a.description 50 ++ "..."

/-- Achievements not marked AI-enhanced, tagged per the source. -/
def unenhancedAchievements (d : ResumeData) : List String :=
  (d.experience.map (fun e =>
    (e.achievements.filter (fun a => !a.ai_enhanced)).map (achievementTag e.company))).flatten

/-- AI-enhancement coverage warning: fires when more than five
achievements are unenhanced. -/
def enhancementWarnings (d : ResumeData) : List String :=
  let u := unenhancedAchievements d
  if !u.isEmpty && 5 < u.length then
    [toString u.length ++ " achievements could benefit from AI enhancement"]
  else []

/-- Achievements whose `metrics` field is falsy (absent or empty). -/
def achievementsWithoutMetrics (d : ResumeData) : List String :=
  (d.experience.map (fun e =>
    (e.achievements.filter (fun a => !truthyOptList a.metrics)).map
      (achievementTag e.company))).flatten

/-- Metric coverage warning: fires when more than three achievements lack
quantified metrics. -/
def metricsWarnings (d : ResumeData) : List String :=
  let u := achievementsWithoutMetrics d
  if !u.isEmpty && 3 < u.length then
    [toString u.length ++ " achievements lack quantified metrics"]
  else []

/-- Education-presence warning. -/
def educationWarnings (d : ResumeData) : List String :=
  if d.education.isEmpty then ["No education information found"] else []

/-- Professional-summary length warnings. -/
def summaryWarnings (d : ResumeData) : List String :=
  let len := strLen d.professional_summary.overview
  if len < 100 then ["Professional summary is quite short - consider expanding"]
  else if 1000 < len then ["Professional summary is very long - consider condensing"]
  else []

/-- `_validate_business_rules`: the `(errors, warnings)` pair; the errors
list is created empty and never appended to. -/
def validateBusinessRules (d : ResumeData) : List String × List String :=
  ([],
   chronologyWarnings d ++ currentPositionWarnings d ++ skillCountWarnings d ++
   enhancementWarnings d ++ metricsWarnings d ++ educationWarnings d ++
   summaryWarnings d)

/-! ### The pipeline entry point -/

/-- Format of one Gate-2 error line:
`Data validation error in {path}: {message}` with the path joined by
arrows. -/
def formatPydErr (e : PydErr) : String :=
  "Data validation error in " ++ joinSep " -> " e.loc ++ ": " ++ e.msg

/-- The error lines a Gate-1 violation contributes: the message line, and
an indented path line when the violation has a non-empty path. -/
def gate1ErrorLines (v : SchemaViolation) : List String :=
  ["Schema validation error: " ++ v.message] ++
  (if v.path.isEmpty then [] else ["  Path: " ++ joinSep " -> " v.path])

/-- `validate_resume_data`: the three-gate pipeline. `schema = none`
models the schema file not existing at `schema_path`. -/
def validate_resume_data (schema : Option JsonSchema) (data : RawResumeData) :
    ValidationResult :=
  match schema with
  | none =>
    { is_valid := false, errors := ["Schema file not found"], warnings := [], data := none }
  | some sch =>
    match schemaFirstViolation sch data with
    | some v =>
      { is_valid := false, errors := gate1ErrorLines v, warnings := [], data := none }
    | none =>
      match pydanticBuild data with
      | Except.error errs =>
        { is_valid := false, errors := errs.map formatPydErr, warnings := [],
          data := none }
      | Except.ok d =>
        let bres := validateBusinessRules d
        let errors := bres.1
        let warnings := bres.2
        { is_valid := errors.isEmpty, errors := errors, warnings := warnings,
          data := some d }

/-! ## Builder factory (`builders/__init__.py`) -/

/-- A builder class as the factory sees it: its name and whether it is a
`BaseBuilder` subclass (the only property `register_builder` inspects). -/
structure BuilderClass where
  name : String
  isBuilderSubclass : Bool := true
deriving DecidableEq

/-- The factory registry: format name to builder class, in insertion
order, as the class-level dict holds it. -/
structure BuilderFactory where
  builders : List (String × BuilderClass) := []
deriving DecidableEq

/-- Python dict assignment: overwrite in place when the key exists,
append otherwise. -/
def dictInsert (k : String) (v : β) : List (String × β) → List (String × β)
  | [] => [(k, v)]
  | (k2, v2) :: t => if k2 == k then (k2, v) :: t else (k2, v2) :: dictInsert k v t

/-- `BuilderFactory.register_builder`: rejects an empty or blank name and
a class that is not a `BaseBuilder` subclass; stores under the lower-cased,
trimmed name, overwriting any existing registration. -/
def BuilderFactory.register_builder (f : BuilderFactory) (format_type : String)
    (builder_class : BuilderClass) : Except String BuilderFactory :=
  if format_type.data.isEmpty || (pyStrip format_type).data.isEmpty then
    Except.error "Format type cannot be empty"
  else if !builder_class.isBuilderSubclass then
    Except.error ("Builder class must inherit from BaseBuilder, got " ++ builder_class.name)
  else
    Except.ok ⟨dictInsert (pyStrip (pyLower format_type)) builder_class f.builders⟩

/-- The sorted, comma-joined list of registered format names
(`", ".join(sorted(cls._builders.keys()))`). -/
def BuilderFactory.availableFormats (f : BuilderFactory) : String :=
  joinSep ", " ((f.builders.map Prod.fst).insertionSort (fun a b => strLe a b = true))

instance : DecidableRel (fun (a b : String) => strLe a b = true) :=
  fun _ _ => by infer_instance

/-- `BuilderFactory.create_builder`: rejects an empty name; normalizes by
lower-casing and trimming; an unknown format fails with the sorted list of
registered names (or `none registered`); a registered format yields its
class. -/
def BuilderFactory.create_builder (f : BuilderFactory) (format_type : String) :
    Except String BuilderClass :=
  if format_type.data.isEmpty then
    Except.error "Format type cannot be empty"
  else
    let key := pyStrip (pyLower format_type)
    match f.builders.lookup key with
    | none =>
      let available := f.availableFormats
      Except.error ("Unknown format '" ++ key ++ "'. Available formats: " ++
        (if available.data.isEmpty then "none registered" else available))
    | some cls => Except.ok cls

/-- `BuilderFactory.is_format_supported`. -/
def BuilderFactory.is_format_supported (f : BuilderFactory) (format_type : String) : Bool :=
  (f.builders.lookup (pyStrip (pyLower format_type))).isSome

/-- `BuilderFactory.unregister_builder`. -/
def BuilderFactory.unregister_builder (f : BuilderFactory) (format_type : String) :
    BuilderFactory × Bool :=
  let key := pyStrip (pyLower format_type)
  if (f.builders.lookup key).isSome then
    (⟨f.builders.filter (fun kv => kv.1 != key)⟩, true)
  else (f, false)

/-! ## Concrete fixtures

A small well-formed document (used to instantiate theorems with
hypotheses), and deliberately broken variants. -/

def ach1 : Achievement :=
  { description := "Led migration of the data platform to the cloud",
    impact := Impact.high, metrics := some [⟨"30", "percent", true⟩],
    ai_enhanced := true }

def ach2 : Achievement :=
  { description := "Cut infrastructure cost by a third across teams",
    impact := Impact.medium, metrics := some [⟨"33", "percent", true⟩],
    ai_enhanced := true }

def exp1 : Experience :=
  { company := "Initech", role := "Staff Engineer", start_date := "2020-01",
    end_date := none, achievements := [ach1, ach2] }

def skill1 : Skill :=
  { name := "Kubernetes", proficiency := Proficiency.expert, years_experience := some 8 }

def skill2 : Skill :=
  { name := "Python", proficiency := Proficiency.advanced, years_experience := some 12 }

def skill3 : Skill :=
  { name := "Terraform", proficiency := Proficiency.advanced, years_experience := some 5 }

def pinfo : PersonalInfo :=
  { name := "Tom Drake", title := "Platform Engineer", email := "tom@example.com",
    location := { city := "Boston", state := "MA", country := "USA" } }

def psummary : ProfessionalSummary :=
  { headline := "Engineering leader focused on developer platforms",
    overview := "Engineering leader with two decades of experience building reliable platforms, developer tooling and high performing teams.",
    key_strengths := ["Kubernetes", "Observability", "CI and CD"],
    years_experience := some 20 }

def edu1 : Education :=
  { institution := "State University", degree := "BS Computer Science",
    graduation_date := "2004" }

/-- A well-formed document with three skills in one category. -/
def doc3 : ResumeData :=
  { version := "1.0.0", last_updated := "2024-01-01T00:00:00",
    personal_info := pinfo, professional_summary := psummary,
    experience := [exp1],
    skills := { categories := [("devops", { skills := [skill1, skill2, skill3] })] },
    education := [edu1] }

/-- The raw record corresponding to `doc3`. -/
def raw3 : RawResumeData :=
  { version := some "1.0.0", last_updated := some "2024-01-01T00:00:00",
    personal_info := some pinfo, professional_summary := some psummary,
    experience := some [exp1],
    skills := some { categories := [("devops", { skills := [skill1, skill2, skill3] })] },
    education := some [edu1] }

/-- Modelled from the spec: the required top-level properties of the
external schema document (scenario A relies on `personal_info` being
required). -/
def schemaFull : JsonSchema :=
  ⟨["version", "last_updated", "personal_info", "professional_summary",
    "experience", "skills", "education"]⟩

/-- `raw3` with `personal_info` removed (scenario A). -/
def rawMissingPI : RawResumeData := { raw3 with personal_info := none }

/-- `psummary` with an explicit `years_experience` of zero. -/
def psummaryZero : ProfessionalSummary := { psummary with years_experience := some 0 }

/-- `doc3` with an explicit `years_experience` of zero. -/
def docZeroYears : ResumeData := { doc3 with professional_summary := psummaryZero }

/-- An otherwise valid experience with a single (valid) achievement. -/
def expOneAch : Experience := { exp1 with achievements := [ach1] }

/-- `pinfo` with a one-character title (violates the 5-character minimum). -/
def pinfoShortTitle : PersonalInfo := { pinfo with title := "X" }

/-- A raw record violating two independent typed field constraints: a
one-character personal title and a single-achievement experience. -/
def rawTwoViolations : RawResumeData :=
  { raw3 with
    personal_info := some pinfoShortTitle, experience := some [expOneAch] }

/-- A registry holding exactly the `html` and `json` builders
(scenario E). -/
def regHtmlJson : BuilderFactory :=
  ⟨[("html", ⟨"HtmlBuilder", true⟩), ("json", ⟨"JsonBuilder", true⟩)]⟩

/-- The spec-side restatement of `total_experience_years` as amended: an
explicit, present and nonzero summary value wins; a missing or zero value
falls through to the computed sum with a one-year floor. -/
def totalExperienceYearsSpec (d : ResumeData) (now : Nat × Nat) : Int :=
  let fallback : Int :=
    max 1 (Int.fdiv ((d.experience.map (fun e => (e.duration_months now).getD 0)).sum) 12)
  match d.professional_summary.years_experience with
  | none => fallback
  | some y => if y = 0 then fallback else y

/-! # Theorems -/

/-! ## General helper lemmas -/

theorem lookup_eq_none_of_not_mem {β : Type} (l : List (String × β)) (a : String)
    (h : a ∉ l.map Prod.fst) : l.lookup a = none := by
  induction l with
  | nil => rfl
  | cons hd tl ih =>
    simp only [List.map_cons, List.mem_cons, not_or] at h
    have hb : (a == hd.1) = false := beq_eq_false_iff_ne.mpr h.1
    simp [List.lookup, hb, ih h.2]

theorem keyLe_total (a b : Nat × Int) : keyLe a b = true ∨ keyLe b a = true := by
  unfold keyLe
  simp only [Bool.or_eq_true, Bool.and_eq_true, beq_iff_eq, decide_eq_true_eq]
  omega

theorem keyLe_trans (a b c : Nat × Int) (h1 : keyLe a b = true) (h2 : keyLe b c = true) :
    keyLe a c = true := by
  unfold keyLe at *
  simp only [Bool.or_eq_true, Bool.and_eq_true, beq_iff_eq, decide_eq_true_eq] at *
  omega

instance : IsTotal Skill skillDescBefore :=
  ⟨fun a b => (keyLe_total (skillSortKey b) (skillSortKey a)).elim Or.inl Or.inr⟩

instance : IsTrans Skill skillDescBefore :=
  ⟨fun _ _ _ h1 h2 => keyLe_trans _ _ _ h2 h1⟩

/-! ## C10: `get_skills_by_category` -/

/-- C10: `get_skills_by_category` returns the empty list for an absent
category key, and exactly the category's own skills list for a present
key. -/
theorem get_skills_by_category_spec (d : ResumeData) (category : String) :
    (category ∉ d.skills.categories.map Prod.fst →
      d.get_skills_by_category category = []) ∧
    (∀ c, d.skills.categories.lookup category = some c →
      d.get_skills_by_category category = c.skills) := by
  constructor
  · intro h
    unfold ResumeData.get_skills_by_category
    rw [lookup_eq_none_of_not_mem _ _ h]
  · intro c h
    unfold ResumeData.get_skills_by_category
    rw [h]

/-! ## C6: `total_experience_years` -/

/-- C6 counterexample: in `docZeroYears` the summary's explicit
`years_experience` is present (it is `0`), yet `total_experience_years`
is the computed `4`, not `0`: a present-but-zero value is not used. -/
theorem total_experience_years_zero_counterexample :
    docZeroYears.professional_summary.years_experience = some 0 ∧
    docZeroYears.total_experience_years (2024, 1) = 4 := by
  constructor
  · rfl
  · decide

/-- C6 amended: `total_experience_years` equals the summary's explicit
`years_experience` whenever that value is present and nonzero; when it is
absent or zero it equals the summed `duration_months` divided into whole
years, floored at a minimum of one year. -/
theorem total_experience_years_eq_spec (d : ResumeData) (now : Nat × Nat) :
    d.total_experience_years now = totalExperienceYearsSpec d now := by
  unfold ResumeData.total_experience_years totalExperienceYearsSpec
  cases hy : d.professional_summary.years_experience with
  | none => simp [truthyOptInt, hy]
  | some y =>
    by_cases h0 : y = 0
    · simp [truthyOptInt, hy, h0]
    · simp [truthyOptInt, hy, h0, Option.getD]

/-! ## C7: `get_top_skills` -/

/-- C7: `get_top_skills limit` is the first `limit` elements of the stable
descending sort of the concatenated skills by
`(proficiency rank, years_experience)`: the sorted list is a permutation
of the concatenation, pairwise ordered descending by the key, any two
skills in key order (ties included) keep their relative insertion order,
and the proficiency ranks are the fixed table expert 4, advanced 3,
intermediate 2, beginner 1. -/
theorem get_top_skills_spec (d : ResumeData) (limit : Nat) :
    d.get_top_skills limit = (d.allSkills.insertionSort skillDescBefore).take limit ∧
    (d.allSkills.insertionSort skillDescBefore).Perm d.allSkills ∧
    (d.allSkills.insertionSort skillDescBefore).Sorted skillDescBefore ∧
    (∀ a b : Skill, skillDescBefore a b → [a, b].Sublist d.allSkills →
      [a, b].Sublist (d.allSkills.insertionSort skillDescBefore)) ∧
    proficiencyOrder Proficiency.expert = 4 ∧
    proficiencyOrder Proficiency.advanced = 3 ∧
    proficiencyOrder Proficiency.intermediate = 2 ∧
    proficiencyOrder Proficiency.beginner = 1 :=
  ⟨rfl, List.perm_insertionSort _ _, List.sorted_insertionSort _ _,
   fun _ _ hab hsub => List.pair_sublist_insertionSort hab hsub,
   rfl, rfl, rfl, rfl⟩

/-- Concrete evaluation of the sort on the sample document: the expert
skill leads, then the two advanced skills by years of experience. -/
theorem get_top_skills_sample :
    doc3.get_top_skills 2 = [skill1, skill2] ∧
    doc3.get_top_skills 10 = [skill1, skill2, skill3] := by
  constructor <;> decide

/-! ## Emptiness helpers for the check combinators -/

theorem errIf_eq_nil (b : Bool) (loc : List String) (msg : String) :
    errIf b loc msg = [] ↔ b = false := by
  cases b <;> simp [errIf]

theorem optChecks_eq_nil (o : Option α) (f : α → List PydErr) :
    optChecks o f = [] ↔ ∀ x ∈ o, f x = [] := by
  cases o <;> simp [optChecks]

theorem snd_mem_of_mem_enum {l : List α} {p : Nat × α} (h : p ∈ l.enum) : p.2 ∈ l := by
  have he := List.enum_map_snd l
  rw [← he]
  exact List.mem_map_of_mem Prod.snd h

theorem listChecks_eq_nil (loc : List String) (l : List α)
    (f : List String → α → List PydErr) :
    listChecks loc l f = [] ↔ ∀ p ∈ l.enum, f (loc ++ [toString p.1]) p.2 = [] := by
  simp only [listChecks, List.flatten_eq_nil_iff, List.mem_map, Prod.exists,
    forall_exists_index, and_imp]
  constructor
  · intro h p hp
    exact h _ p.1 p.2 hp rfl
  · intro h l1 a b hab hf
    exact hf ▸ h (a, b) hab

/-! ## C5: achievement count bounds on `Experience` -/

/-- C5 counterexample: `expOneAch` is an experience whose only
achievement is itself valid and whose other fields all satisfy their
bounds, yet with one achievement (a count inside the claimed 1..12 range)
typed construction fails: the model requires at least 2. -/
theorem experience_one_achievement_rejected :
    expOneAch.achievements.length = 1 ∧
    checkExperience [] expOneAch =
      [⟨["achievements"], minItemsMsg 2⟩] := by
  constructor
  · rfl
  · decide

/-- C5 amended: for an experience whose other fields are all within their
bounds and whose achievements are each individually valid, construction
succeeds exactly when the achievement count is between 2 and 8 inclusive
(the source bounds `min_items=2, max_items=8`, not 1..12). -/
theorem experience_achievements_bounds (loc : List String) (e : Experience)
    (hc1 : 2 ≤ strLen e.company) (hc2 : strLen e.company ≤ 100)
    (hr1 : 5 ≤ strLen e.role) (hr2 : strLen e.role ≤ 100)
    (hs : isYYYYMM e.start_date = true)
    (he : ∀ ed ∈ e.end_date, isYYYYMM ed = true)
    (hl : ∀ s ∈ e.location, strLen s ≤ 100)
    (hd : ∀ s ∈ e.company_description, strLen s ≤ 200)
    (ha : ∀ a ∈ e.achievements,
      20 ≤ strLen a.description ∧ strLen a.description ≤ 300) :
    checkExperience loc e = [] ↔
      2 ≤ e.achievements.length ∧ e.achievements.length ≤ 8 := by
  unfold checkExperience
  simp only [List.append_eq_nil, errIf_eq_nil, optChecks_eq_nil, listChecks_eq_nil]
  constructor
  · rintro ⟨⟨⟨⟨⟨⟨⟨⟨⟨⟨_, _⟩, _⟩, _⟩, _⟩, _⟩, _⟩, _⟩, hmin⟩, hmax⟩, _⟩
    rw [decide_eq_false_iff_not] at hmin hmax
    omega
  · intro hbounds
    refine ⟨⟨⟨⟨⟨⟨⟨⟨⟨⟨?_, ?_⟩, ?_⟩, ?_⟩, ?_⟩, ?_⟩, ?_⟩, ?_⟩, ?_⟩, ?_⟩, ?_⟩
    · rw [decide_eq_false_iff_not]; omega
    · rw [decide_eq_false_iff_not]; omega
    · rw [decide_eq_false_iff_not]; omega
    · rw [decide_eq_false_iff_not]; omega
    · simpa using hs
    · intro ed hed
      simp [he ed hed]
    · intro s hsl
      rw [decide_eq_false_iff_not]
      have := hl s hsl
      omega
    · intro s hsd
      rw [decide_eq_false_iff_not]
      have := hd s hsd
      omega
    · rw [decide_eq_false_iff_not]; omega
    · rw [decide_eq_false_iff_not]; omega
    · intro p hp
      have hmem := snd_mem_of_mem_enum hp
      have hdesc := ha p.2 hmem
      unfold checkAchievement
      simp only [List.append_eq_nil, errIf_eq_nil, decide_eq_false_iff_not]
      omega

/-- C5 witness: `exp1` (two valid achievements, all other fields in
bounds) is constructible by the amended criterion. -/
theorem experience_achievements_bounds_witness :
    checkExperience [] exp1 = [] :=
  (experience_achievements_bounds [] exp1 (by decide) (by decide) (by decide)
    (by decide) (by decide) (by decide) (by decide) (by decide)
    (by decide)).mpr (by decide)

/-! ## C1: warnings never affect validity -/

/-- C1: once Gate 1 and Gate 2 pass, the business-rule stage contributes
no errors (its error list is identically empty), so the pipeline result is
valid with an empty error list, however many warnings were produced. -/
theorem gates_pass_implies_valid (sch : JsonSchema) (r : RawResumeData) (d : ResumeData)
    (h1 : schemaFirstViolation sch r = none)
    (h2 : pydanticBuild r = Except.ok d) :
    (validateBusinessRules d).1 = [] ∧
    (validate_resume_data (some sch) r).is_valid = true ∧
    (validate_resume_data (some sch) r).errors = [] := by
  refine ⟨rfl, ?_, ?_⟩ <;>
    · unfold validate_resume_data
      simp only [h1, h2]
      rfl

set_option maxRecDepth 200000 in
/-- C1 witness: the sample raw record passes both gates and validates. -/
theorem gates_pass_implies_valid_witness :
    (validateBusinessRules doc3).1 = [] ∧
    (validate_resume_data (some schemaFull) raw3).is_valid = true ∧
    (validate_resume_data (some schemaFull) raw3).errors = [] :=
  gates_pass_implies_valid schemaFull raw3 doc3 (by decide) (by rfl)

/-! ## C8: the sparse-skills warning -/

theorem strContainsAux_middle (m : List Char) :
    ∀ p s : List Char, strContainsAux m (p ++ (m ++ s)) = true := by
  intro p
  induction p with
  | nil =>
    intro s
    rw [List.nil_append]
    cases hm : m ++ s with
    | nil =>
      have hm1 : m = [] := (List.append_eq_nil.mp hm).1
      unfold strContainsAux
      simp [hm1]
    | cons c t =>
      unfold strContainsAux
      have hpre : m <+: c :: t := hm ▸ List.prefix_append m s
      rw [List.isPrefixOf_iff_prefix.mpr hpre]
      simp
  | cons c p ih =>
    intro s
    rw [List.cons_append]
    unfold strContainsAux
    rw [ih s]
    simp

/-- A middle segment is always found by the substring scan. -/
theorem strContains_middle (p m s : String) :
    strContains (p ++ m ++ s) m = true := by
  unfold strContains
  rw [String.data_append, String.data_append, List.append_assoc]
  exact strContainsAux_middle m.data p.data s.data

set_option maxRecDepth 200000 in
/-- C8 counterexample: `doc3` has 3 skills in total; the business-rule
stage emits exactly one warning, the sparse-skills one, and that warning
does not contain the substring `10`: the threshold is not mentioned. -/
theorem sparse_skills_warning_counterexample :
    totalSkills doc3 = 3 ∧
    skillCountWarnings doc3 = [sparseSkillsWarning 3] ∧
    (validateBusinessRules doc3).2 = [sparseSkillsWarning 3] ∧
    strContains (sparseSkillsWarning 3) "10" = false := by
  refine ⟨by decide, by decide, by decide, by decide⟩

/-- C8 amended: for every well-typed document with fewer than 10 total
skills, the skill-count rule emits exactly one warning, that warning is
among the pipeline warnings, and it mentions the actual skill count --
not the literal threshold 10, which never appears in it. -/
theorem sparse_skills_warning_spec (d : ResumeData) (h : totalSkills d < 10) :
    skillCountWarnings d = [sparseSkillsWarning (totalSkills d)] ∧
    sparseSkillsWarning (totalSkills d) ∈ (validateBusinessRules d).2 ∧
    strContains (sparseSkillsWarning (totalSkills d)) (toString (totalSkills d)) = true ∧
    strContains (sparseSkillsWarning (totalSkills d)) "10" = false := by
  have h1 : skillCountWarnings d = [sparseSkillsWarning (totalSkills d)] := by
    unfold skillCountWarnings
    rw [if_pos h]
  refine ⟨h1, ?_, ?_, ?_⟩
  · unfold validateBusinessRules
    simp only [List.mem_append, h1]
    simp
  · unfold sparseSkillsWarning
    exact strContains_middle _ _ _
  · set n := totalSkills d with hn
    clear hn h1
    interval_cases n <;> decide

set_option maxRecDepth 200000 in
/-- C8 witness: the three-skill sample document. -/
theorem sparse_skills_warning_witness :
    totalSkills doc3 < 10 ∧
    (skillCountWarnings doc3 = [sparseSkillsWarning (totalSkills doc3)] ∧
     sparseSkillsWarning (totalSkills doc3) ∈ (validateBusinessRules doc3).2 ∧
     strContains (sparseSkillsWarning (totalSkills doc3)) (toString (totalSkills doc3)) = true ∧
     strContains (sparseSkillsWarning (totalSkills doc3)) "10" = false) :=
  ⟨by decide, sparse_skills_warning_spec doc3 (by decide)⟩

/-! ## Length correspondence: one error per violated constraint -/

theorem length_errIf (b : Bool) (loc : List String) (msg : String) :
    (errIf b loc msg).length = cntIf b := by
  cases b <;> simp [errIf, cntIf]

theorem length_two_errIf (b1 b2 : Bool) (l1 l2 : List String) (m1 m2 : String) :
    (errIf b1 l1 m1 ++ errIf b2 l2 m2).length = cntIf b1 + cntIf b2 := by
  simp only [List.length_append, length_errIf]

theorem sum_enum_map (g : α → Nat) (l : List α) :
    (l.enum.map (fun p => g p.2)).sum = (l.map g).sum := by
  have h : l.enum.map (fun p => g p.2) = (l.enum.map Prod.snd).map g := by
    rw [List.map_map]
    exact List.map_congr_left (fun p _ => rfl)
  rw [h, List.enum_map_snd]

theorem length_optChecks_of {f : α → List PydErr} {g : α → Nat} (o : Option α)
    (h : ∀ x, (f x).length = g x) : (optChecks o f).length = optCount o g := by
  cases o <;> simp [optChecks, optCount, h]

theorem length_reqChecks_of (k : String) {f : α → List PydErr} {g : α → Nat}
    (o : Option α) (h : ∀ x, (f x).length = g x) :
    (reqChecks k o f).length = reqCount o g := by
  cases o <;> simp [reqChecks, reqCount, h]

theorem length_listChecks_of (loc : List String) (l : List α)
    {f : List String → α → List PydErr} {g : α → Nat}
    (h : ∀ pre x, (f pre x).length = g x) :
    (listChecks loc l f).length = listCount l g := by
  simp only [listChecks, listCount, List.length_flatten, List.map_map]
  have h2 : (List.map ((fun l2 => l2.length) ∘ fun p => f (loc ++ [toString p.1]) p.2) l.enum)
      = l.enum.map (fun p => g p.2) :=
    List.map_congr_left (fun p _ => h _ p.2)
  rw [h2, sum_enum_map]

theorem length_assocChecks_of (loc : List String) (l : List (String × α))
    {f : List String → α → List PydErr} {g : α → Nat}
    (h : ∀ pre x, (f pre x).length = g x) :
    (assocChecks loc l f).length = assocCount l g := by
  simp only [assocChecks, assocCount, List.length_flatten, List.map_map]
  exact congrArg List.sum (List.map_congr_left (fun kv _ => h _ kv.2))

theorem length_checkLocation (loc : List String) (l : Location) :
    (checkLocation loc l).length = locationCount l := by
  unfold checkLocation locationCount
  simp only [List.length_append, length_errIf]

theorem length_checkPersonalInfo (loc : List String) (p : PersonalInfo) :
    (checkPersonalInfo loc p).length = personalInfoCount p := by
  unfold checkPersonalInfo personalInfoCount
  simp only [List.length_append, length_errIf]
  rw [length_optChecks_of _ (fun x => length_errIf _ _ _), length_checkLocation]

theorem length_checkProfessionalSummary (loc : List String) (p : ProfessionalSummary) :
    (checkProfessionalSummary loc p).length = professionalSummaryCount p := by
  unfold checkProfessionalSummary professionalSummaryCount
  simp only [List.length_append, length_errIf]
  rw [length_optChecks_of _ (fun x => length_two_errIf _ _ _ _ _ _)]

theorem length_checkAchievement (loc : List String) (a : Achievement) :
    (checkAchievement loc a).length = achievementCount a := by
  unfold checkAchievement achievementCount
  simp only [List.length_append, length_errIf]

theorem length_checkExperience (loc : List String) (e : Experience) :
    (checkExperience loc e).length = experienceCount e := by
  unfold checkExperience experienceCount
  simp only [List.length_append, length_errIf]
  rw [length_optChecks_of _ (fun x => length_errIf _ _ _),
      length_optChecks_of _ (fun x => length_errIf _ _ _),
      length_optChecks_of _ (fun x => length_errIf _ _ _),
      length_listChecks_of _ _ length_checkAchievement]

theorem length_checkSkill (loc : List String) (s : Skill) :
    (checkSkill loc s).length = skillCount s := by
  unfold checkSkill skillCount
  simp only [List.length_append, length_errIf]
  rw [length_optChecks_of _ (fun x => length_two_errIf _ _ _ _ _ _),
      length_optChecks_of _ (fun x => length_errIf _ _ _)]

theorem length_checkSkillCategory (loc : List String) (c : SkillCategory) :
    (checkSkillCategory loc c).length = skillCategoryCount c := by
  unfold checkSkillCategory skillCategoryCount
  simp only [List.length_append, length_errIf]
  rw [length_listChecks_of _ _ length_checkSkill]

theorem length_checkSkills (loc : List String) (s : Skills) :
    (checkSkills loc s).length = skillsCount s := by
  unfold checkSkills skillsCount
  simp only [List.length_append]
  rw [length_assocChecks_of _ _ length_checkSkillCategory,
      length_optChecks_of _ (fun x => length_errIf _ _ _)]
  congr 2
  cases hf : s.categories.find? (fun kv => !categoryKeyOk kv.1) with
  | none =>
    have ha : s.categories.any (fun kv => !categoryKeyOk kv.1) = false :=
      List.any_eq_false.mpr (List.find?_eq_none.mp hf)
    simp [ha, cntIf]
  | some kv =>
    have ha : s.categories.any (fun kv => !categoryKeyOk kv.1) = true :=
      List.any_eq_true.mpr ⟨kv,
        List.mem_of_find?_eq_some (p := fun q : String × SkillCategory => !categoryKeyOk q.1) hf,
        List.find?_some (p := fun q : String × SkillCategory => !categoryKeyOk q.1) hf⟩
    simp [ha, cntIf]

theorem length_checkEducation (loc : List String) (e : Education) :
    (checkEducation loc e).length = educationCount e := by
  unfold checkEducation educationCount
  simp only [List.length_append, length_errIf]
  rw [length_optChecks_of _ (fun x => length_errIf _ _ _),
      length_optChecks_of _ (fun x => length_two_errIf _ _ _ _ _ _)]

theorem length_checkCertification (loc : List String) (c : Certification) :
    (checkCertification loc c).length = certificationCount c := by
  unfold checkCertification certificationCount
  simp only [List.length_append, length_errIf]
  rw [length_optChecks_of _ (fun x => length_errIf _ _ _)]

theorem length_checkProject (loc : List String) (p : Project) :
    (checkProject loc p).length = projectCount p := by
  unfold checkProject projectCount
  simp only [List.length_append, length_errIf]
  rw [length_optChecks_of _ (fun x => length_errIf _ _ _),
      length_optChecks_of _ (fun x => length_errIf _ _ _)]

theorem length_checkAward (loc : List String) (a : Award) :
    (checkAward loc a).length = awardCount a := by
  unfold checkAward awardCount
  rw [length_errIf]

theorem length_checkPublication (loc : List String) (p : Publication) :
    (checkPublication loc p).length = publicationCount p := by
  unfold checkPublication publicationCount
  rw [length_errIf]

theorem length_checkMetadata (loc : List String) (m : Metadata) :
    (checkMetadata loc m).length = metadataCount m := by
  unfold checkMetadata metadataCount
  simp only [List.length_append]
  rw [length_optChecks_of _ (fun x => length_errIf _ _ _),
      length_optChecks_of _ (fun a => by
        rw [List.length_append,
            length_optChecks_of _ (fun v => length_two_errIf _ _ _ _ _ _),
            length_optChecks_of _ (fun v => length_two_errIf _ _ _ _ _ _)])]

/-- Every violated typed field constraint contributes exactly one entry
to the collected pydantic errors: the error list length equals the
violation count. -/
theorem length_pydanticErrors (r : RawResumeData) :
    (pydanticErrors r).length = violatedConstraintCount r := by
  unfold pydanticErrors violatedConstraintCount
  simp only [List.length_append, List.length_map]
  rw [length_reqChecks_of _ _ (fun v => length_errIf _ _ _),
      length_reqChecks_of _ _ (fun x => (rfl : ([] : List PydErr).length = 0)),
      length_reqChecks_of _ _ (length_checkPersonalInfo ["personal_info"]),
      length_reqChecks_of _ _ (length_checkProfessionalSummary ["professional_summary"]),
      length_reqChecks_of _ _ (fun l => by
        rw [List.length_append, length_errIf, length_listChecks_of _ _ length_checkExperience]),
      length_reqChecks_of _ _ (length_checkSkills ["skills"]),
      length_reqChecks_of _ _ (fun l => by
        rw [List.length_append, length_errIf, length_listChecks_of _ _ length_checkEducation]),
      length_optChecks_of _ (fun l => length_listChecks_of _ _ length_checkCertification),
      length_optChecks_of _ (fun l => length_listChecks_of _ _ length_checkProject),
      length_optChecks_of _ (fun l => length_listChecks_of _ _ length_checkAward),
      length_optChecks_of _ (fun l => length_listChecks_of _ _ length_checkPublication),
      length_optChecks_of _ (length_checkMetadata ["metadata"])]
  rfl

/-! ## Branch behaviour of `pydanticBuild` -/

theorem pydanticErrors_ne_nil_of_missing (r : RawResumeData)
    (h : r.version = none ∨ r.last_updated = none ∨ r.personal_info = none ∨
         r.professional_summary = none ∨ r.experience = none ∨ r.skills = none ∨
         r.education = none) :
    pydanticErrors r ≠ [] := by
  intro hnil
  unfold pydanticErrors at hnil
  simp only [List.append_eq_nil] at hnil
  obtain ⟨⟨⟨⟨⟨⟨⟨⟨⟨⟨⟨⟨hv, hlu⟩, hpi⟩, hps⟩, hex⟩, hsk⟩, hed⟩, -⟩, -⟩, -⟩, -⟩, -⟩, -⟩ := hnil
  rcases h with h | h | h | h | h | h | h <;>
    first
    | (rw [h] at hv; simp [reqChecks] at hv)
    | (rw [h] at hlu; simp [reqChecks] at hlu)
    | (rw [h] at hpi; simp [reqChecks] at hpi)
    | (rw [h] at hps; simp [reqChecks] at hps)
    | (rw [h] at hex; simp [reqChecks] at hex)
    | (rw [h] at hsk; simp [reqChecks] at hsk)
    | (rw [h] at hed; simp [reqChecks] at hed)

theorem pydanticBuild_error_of_ne_nil (r : RawResumeData)
    (h : pydanticErrors r ≠ []) :
    pydanticBuild r = Except.error (pydanticErrors r) := by
  unfold pydanticBuild
  split
  · rw [if_neg]
    simpa [List.isEmpty_iff] using h
  · rfl

theorem pydanticBuild_error_eq (r : RawResumeData) (errs : List PydErr)
    (h : pydanticBuild r = Except.error errs) :
    errs = pydanticErrors r ∧ pydanticErrors r ≠ [] := by
  unfold pydanticBuild at h
  split at h
  · split at h
    · exact absurd h (by simp)
    · rename_i hne
      cases h
      refine ⟨rfl, ?_⟩
      simpa [List.isEmpty_iff] using hne
  · cases h
    refine ⟨rfl, pydanticErrors_ne_nil_of_missing r ?_⟩
    rename_i hno
    cases hv : r.version with
    | none => exact Or.inl rfl
    | some v =>
    cases hlu : r.last_updated with
    | none => exact Or.inr (Or.inl rfl)
    | some lu =>
    cases hpi : r.personal_info with
    | none => exact Or.inr (Or.inr (Or.inl rfl))
    | some pi =>
    cases hps : r.professional_summary with
    | none => exact Or.inr (Or.inr (Or.inr (Or.inl rfl)))
    | some ps =>
    cases hex : r.experience with
    | none => exact Or.inr (Or.inr (Or.inr (Or.inr (Or.inl rfl))))
    | some ex =>
    cases hsk : r.skills with
    | none => exact Or.inr (Or.inr (Or.inr (Or.inr (Or.inr (Or.inl rfl)))))
    | some sk =>
    cases hed : r.education with
    | none => exact Or.inr (Or.inr (Or.inr (Or.inr (Or.inr (Or.inr rfl)))))
    | some ed => exact absurd trivial (by
        have := hno v lu pi ps ex sk ed hv hlu hpi hps hex hsk hed
        exact fun _ => this)

/-! ## C4: Gate-1 failure short-circuits -/

/-- C4: when the structural schema check fails, the pipeline returns
immediately: the result is exactly invalid/no-data with the violation's
message lines (message, and path line when the violation has a path) as
its errors and no warnings -- no later gate contributes anything. -/
theorem gate1_failure_short_circuits (sch : JsonSchema) (r : RawResumeData)
    (v : SchemaViolation) (h : schemaFirstViolation sch r = some v) :
    validate_resume_data (some sch) r =
      { is_valid := false, errors := gate1ErrorLines v, warnings := [],
        data := none } := by
  unfold validate_resume_data
  simp only [h]

/-- C4 witness (scenario A): raw input missing `personal_info` fails
Gate 1 with a violation naming `personal_info`, and the pipeline result is
invalid with null data and that single message. -/
theorem gate1_failure_witness :
    schemaFirstViolation schemaFull rawMissingPI =
      some ⟨"'personal_info' is a required property", []⟩ ∧
    validate_resume_data (some schemaFull) rawMissingPI =
      { is_valid := false,
        errors := ["Schema validation error: 'personal_info' is a required property"],
        warnings := [], data := none } ∧
    strContains "Schema validation error: 'personal_info' is a required property"
      "personal_info" = true := by
  refine ⟨by decide, ?_, by decide⟩
  rw [gate1_failure_short_circuits schemaFull rawMissingPI
    ⟨"'personal_info' is a required property", []⟩ (by decide)]
  decide

/-! ## C2: the `ValidationResult` contract -/

/-- C2: every pipeline result satisfies the contract: valid iff no
errors, data present iff valid, and truthiness equals validity. -/
theorem validation_result_contract (schema : Option JsonSchema) (r : RawResumeData) :
    ((validate_resume_data schema r).is_valid = true ↔
      (validate_resume_data schema r).errors = []) ∧
    (validate_resume_data schema r).data.isSome = (validate_resume_data schema r).is_valid ∧
    (validate_resume_data schema r).toBool = (validate_resume_data schema r).is_valid := by
  refine ⟨?_, ?_, rfl⟩ <;>
  · cases schema with
    | none => simp [validate_resume_data]
    | some sch =>
      cases hv : schemaFirstViolation sch r with
      | some v =>
        rw [gate1_failure_short_circuits sch r v hv]
        simp [gate1ErrorLines]
      | none =>
        cases hb : pydanticBuild r with
        | error errs =>
          have hne : errs ≠ [] := by
            rcases pydanticBuild_error_eq r errs hb with ⟨he, hnn⟩
            rw [he]; exact hnn
          unfold validate_resume_data
          simp only [hv, hb]
          simp [hne]
        | ok d =>
          unfold validate_resume_data
          simp only [hv, hb]
          simp [validateBusinessRules]

/-! ## C3: full aggregation of typed field errors -/

/-- C3: when Gate 1 passes and the raw record violates at least one typed
field constraint, the pipeline reports exactly one error per violated
constraint (never only the first), each formatted with the arrow-joined
field path and the message, with validity false and no data. -/
theorem model_errors_aggregation (sch : JsonSchema) (r : RawResumeData)
    (h1 : schemaFirstViolation sch r = none)
    (hN : 1 ≤ violatedConstraintCount r) :
    (validate_resume_data (some sch) r).errors.length = violatedConstraintCount r ∧
    (validate_resume_data (some sch) r).is_valid = false ∧
    (validate_resume_data (some sch) r).data = none ∧
    ∀ m ∈ (validate_resume_data (some sch) r).errors, ∃ e ∈ pydanticErrors r,
      m = "Data validation error in " ++ joinSep " -> " e.loc ++ ": " ++ e.msg := by
  have hne : pydanticErrors r ≠ [] := by
    intro h0
    have hl := length_pydanticErrors r
    rw [h0] at hl
    simp at hl
    omega
  have hb : pydanticBuild r = Except.error (pydanticErrors r) :=
    pydanticBuild_error_of_ne_nil r hne
  have hres : validate_resume_data (some sch) r =
      { is_valid := false, errors := (pydanticErrors r).map formatPydErr,
        warnings := [], data := none } := by
    unfold validate_resume_data
    simp only [h1, hb]
  rw [hres]
  refine ⟨?_, rfl, rfl, ?_⟩
  · simp [List.length_map, length_pydanticErrors]
  · intro m hm
    rcases List.mem_map.mp hm with ⟨e, he, hfe⟩
    exact ⟨e, he, hfe.symm⟩

set_option maxRecDepth 400000 in
/-- C3 witness: a raw record with exactly two independent violations (a
one-character title and a one-achievement experience) yields exactly two
formatted errors. -/
theorem model_errors_aggregation_witness :
    violatedConstraintCount rawTwoViolations = 2 ∧
    ((validate_resume_data (some schemaFull) rawTwoViolations).errors.length =
        violatedConstraintCount rawTwoViolations ∧
      (validate_resume_data (some schemaFull) rawTwoViolations).is_valid = false ∧
      (validate_resume_data (some schemaFull) rawTwoViolations).data = none ∧
      ∀ m ∈ (validate_resume_data (some schemaFull) rawTwoViolations).errors,
        ∃ e ∈ pydanticErrors rawTwoViolations,
          m = "Data validation error in " ++ joinSep " -> " e.loc ++ ": " ++ e.msg) :=
  ⟨by decide, model_errors_aggregation schemaFull rawTwoViolations (by decide) (by decide)⟩

/-! ## C9: builder registry normalization and unknown-format failure -/

theorem charListLe_total : ∀ a b : List Char, charListLe a b = true ∨ charListLe b a = true := by
  intro a
  induction a with
  | nil => intro b; left; rfl
  | cons c as ih =>
    intro b
    cases b with
    | nil => right; rfl
    | cons d bs =>
      by_cases hcd : c = d
      · subst hcd
        rcases ih bs with h | h
        · left; simp [charListLe, h]
        · right; simp [charListLe, h]
      · have h1 : (c == d) = false := beq_eq_false_iff_ne.mpr hcd
        have h2 : (d == c) = false := beq_eq_false_iff_ne.mpr (Ne.symm hcd)
        rcases lt_or_gt_of_ne hcd with h | h
        · left; simp [charListLe, h1, h]
        · right; simp [charListLe, h2, h]

theorem charListLe_trans : ∀ a b c : List Char,
    charListLe a b = true → charListLe b c = true → charListLe a c = true := by
  intro a
  induction a with
  | nil => intro b c _ _; rfl
  | cons x as ih =>
    intro b c h1 h2
    cases b with
    | nil => exact absurd h1 (by simp [charListLe])
    | cons y bs =>
      cases c with
      | nil => exact absurd h2 (by simp [charListLe])
      | cons z cs =>
        unfold charListLe at h1 h2 ⊢
        by_cases hxy : x = y
        · subst hxy
          simp only [beq_self_eq_true, if_true] at h1
          by_cases hyz : x = z
          · subst hyz
            simp only [beq_self_eq_true, if_true] at h2 ⊢
            exact ih bs cs h1 h2
          · have hb : (x == z) = false := beq_eq_false_iff_ne.mpr hyz
            simp [hb] at h2 ⊢
            exact h2
        · have hb1 : (x == y) = false := beq_eq_false_iff_ne.mpr hxy
          simp [hb1] at h1
          by_cases hyz : y = z
          · subst hyz
            simp [hb1]
            exact h1
          · have hb2 : (y == z) = false := beq_eq_false_iff_ne.mpr hyz
            simp [hb2] at h2
            have hxz : x < z := lt_trans h1 h2
            have hb3 : (x == z) = false := beq_eq_false_iff_ne.mpr (ne_of_lt hxz)
            simp [hb3]
            exact hxz

instance : IsTotal String (fun a b : String => strLe a b = true) :=
  ⟨fun a b => charListLe_total a.data b.data⟩

instance : IsTrans String (fun a b : String => strLe a b = true) :=
  ⟨fun a b c => charListLe_trans a.data b.data c.data⟩

theorem lookup_dictInsert (k : String) (v : β) (l : List (String × β)) :
    (dictInsert k v l).lookup k = some v := by
  induction l with
  | nil => simp [dictInsert, List.lookup]
  | cons hd tl ih =>
    obtain ⟨k2, v2⟩ := hd
    by_cases hk : k2 = k
    · subst hk
      simp [dictInsert, List.lookup]
    · have hb : (k2 == k) = false := beq_eq_false_iff_ne.mpr hk
      have hb2 : (k == k2) = false := beq_eq_false_iff_ne.mpr (Ne.symm hk)
      simp [dictInsert, hb, List.lookup, hb2, ih]

/-- C9: after registering format `html`, creating a builder under the
names `HTML`, ` html ` and `html` succeeds identically with the registered
class (case and surrounding whitespace are normalized away); for every
registry `g` and every non-empty format name `s` whose normalized key is
not registered, creation fails with the message listing `g`'s
currently-registered format names sorted and comma-joined (or
`none registered` when there are none), where "sorted" is witnessed by the
listing being an ordered permutation of the registered keys; and in
particular asking a two-format registry (`html`, `json`) for the
unregistered `pdf` fails with a message containing `html, json`. -/
theorem builder_registry_normalization (f f2 g : BuilderFactory) (b : BuilderClass)
    (s : String) (h : f.register_builder "html" b = Except.ok f2)
    (hs : s.data.isEmpty = false)
    (hu : g.builders.lookup (pyStrip (pyLower s)) = none) :
    f2.create_builder "HTML" = Except.ok b ∧
    f2.create_builder " html " = Except.ok b ∧
    f2.create_builder "html" = Except.ok b ∧
    g.create_builder s = Except.error ("Unknown format '" ++ pyStrip (pyLower s) ++
      "'. Available formats: " ++
      (if g.availableFormats.data.isEmpty then "none registered" else g.availableFormats)) ∧
    g.availableFormats =
      joinSep ", " ((g.builders.map Prod.fst).insertionSort (fun a b => strLe a b = true)) ∧
    ((g.builders.map Prod.fst).insertionSort (fun a b => strLe a b = true)).Perm
      (g.builders.map Prod.fst) ∧
    ((g.builders.map Prod.fst).insertionSort (fun a b => strLe a b = true)).Sorted
      (fun a b => strLe a b = true) ∧
    regHtmlJson.create_builder "pdf" =
      Except.error "Unknown format 'pdf'. Available formats: html, json" ∧
    strContains "Unknown format 'pdf'. Available formats: html, json" "html, json" = true := by
  have hf2 : f2 = ⟨dictInsert "html" b f.builders⟩ := by
    unfold BuilderFactory.register_builder at h
    rw [if_neg (by decide)] at h
    split at h
    · exact absurd h (by simp)
    · cases h
      rw [show pyStrip (pyLower "html") = "html" from by decide]
  have hcreate : ∀ t : String, t.data.isEmpty = false → pyStrip (pyLower t) = "html" →
      f2.create_builder t = Except.ok b := by
    intro t hse hsk
    unfold BuilderFactory.create_builder
    rw [hse, hsk, hf2]
    simp only [Bool.false_eq_true, if_false]
    rw [lookup_dictInsert]
  have hunknown : g.create_builder s =
      Except.error ("Unknown format '" ++ pyStrip (pyLower s) ++
        "'. Available formats: " ++
        (if g.availableFormats.data.isEmpty then "none registered"
         else g.availableFormats)) := by
    unfold BuilderFactory.create_builder
    rw [hs]
    simp only [Bool.false_eq_true, if_false]
    rw [hu]
  refine ⟨hcreate "HTML" (by decide) (by decide),
    hcreate " html " (by decide) (by decide),
    hcreate "html" (by decide) (by decide), hunknown, rfl,
    List.perm_insertionSort _ _, List.sorted_insertionSort _ _, by rfl, by decide⟩

/-- C9 witness: registering `html` into the empty factory and creating
under the three spellings; the two-format registry refuses ` PDF `
(normalized to `pdf`) with the sorted listing `html, json`. -/
theorem builder_registry_normalization_witness :
    BuilderFactory.register_builder ⟨[]⟩ "html" ⟨"HtmlBuilder", true⟩ =
      Except.ok ⟨[("html", ⟨"HtmlBuilder", true⟩)]⟩ ∧
    ((⟨[("html", ⟨"HtmlBuilder", true⟩)]⟩ : BuilderFactory).create_builder "HTML" =
        Except.ok ⟨"HtmlBuilder", true⟩ ∧
      (⟨[("html", ⟨"HtmlBuilder", true⟩)]⟩ : BuilderFactory).create_builder " html " =
        Except.ok ⟨"HtmlBuilder", true⟩ ∧
      (⟨[("html", ⟨"HtmlBuilder", true⟩)]⟩ : BuilderFactory).create_builder "html" =
        Except.ok ⟨"HtmlBuilder", true⟩ ∧
      regHtmlJson.create_builder " PDF " =
        Except.error "Unknown format 'pdf'. Available formats: html, json" ∧
      regHtmlJson.availableFormats =
        joinSep ", " ((regHtmlJson.builders.map Prod.fst).insertionSort
          (fun a b => strLe a b = true)) ∧
      ((regHtmlJson.builders.map Prod.fst).insertionSort
          (fun a b => strLe a b = true)).Perm (regHtmlJson.builders.map Prod.fst) ∧
      ((regHtmlJson.builders.map Prod.fst).insertionSort
          (fun a b => strLe a b = true)).Sorted (fun a b => strLe a b = true) ∧
      regHtmlJson.create_builder "pdf" =
        Except.error "Unknown format 'pdf'. Available formats: html, json" ∧
      strContains "Unknown format 'pdf'. Available formats: html, json" "html, json" = true) :=
  ⟨by rfl,
    builder_registry_normalization ⟨[]⟩ ⟨[("html", ⟨"HtmlBuilder", true⟩)]⟩
      regHtmlJson ⟨"HtmlBuilder", true⟩ " PDF " (by rfl) (by decide) (by rfl)⟩

end Resume
